import Mathlib

/-!
Shallow embedding of the bulk image-conversion service in `src/app.py`
(a Flask application built on Pillow).

Modelling conventions:
* Bytes are `List Nat`; pixel images are a `Mode` tag, dimensions and a
  pixel function.  Palette (`P`) images are represented by their
  palette-expanded RGBA colours (the palette lookup is composed into the
  pixel function), since the decoder delivering them is external.
* The external collaborators the application calls into — the Pillow
  decoder/encoder pair (`Image.open` / `Image.save`), the LANCZOS
  resampling kernel and werkzeug's `secure_filename` — are gathered in
  an `ImgLib` parameter; everything the application itself computes
  (alpha compositing, thumbnail geometry, filenames, the batch loop,
  the store and the download handlers) is embedded concretely.
* The thumbnail size computation is the algorithm of Pillow's
  `Image.thumbnail` at the call site `thumbnail((200, 200))`, with exact
  rational arithmetic in place of Python floats.
* Flask state (the module-level `converted_images` dict and the
  per-caller `session['current_conversion']`) is passed explicitly; the
  handlers return the state next to the response.
* Python exceptions become `Except String`; the `try/except` of
  `convert_single_image` becomes matching on the fallible steps.
-/

/-- Pillow image mode, restricted to the modes the code distinguishes. -/
inductive Mode where
  | RGB
  | RGBA
  | LA
  | L
  | P
deriving DecidableEq, Repr

/-- One pixel.  `L`/`LA` store the luminance in `r`; modes without an
alpha channel carry `a = 255`. -/
structure Pix where
  r : Nat
  g : Nat
  b : Nat
  a : Nat
deriving DecidableEq, Repr

/-- An in-memory pixel image (PIL `Image`). -/
structure Img where
  mode : Mode
  width : Nat
  height : Nat
  px : Nat → Nat → Pix

/-- Keyword arguments passed to PIL `Image.save`. -/
structure SaveKwargs where
  quality : Option Nat
  optimize : Option Bool
  lossless : Option Bool
deriving DecidableEq, Repr

/-- External collaborators: Pillow's codec entry points, its LANCZOS
resampler (queried per pixel of the target raster) and werkzeug's
`secure_filename`. -/
structure ImgLib where
  decode : List Nat → Except String Img
  encode : Img → String → SaveKwargs → Except String (List Nat)
  resample : Img → Nat → Nat → Nat → Nat → Pix
  secure_filename : String → String

/-- `ALLOWED_EXTENSIONS` (src/app.py line 25). -/
def ALLOWED_EXTENSIONS : List String := ["png", "jpg", "jpeg", "webp", "avif"]

/-- `ALLOWED_MIME_TYPES` (src/app.py lines 26-28). -/
def ALLOWED_MIME_TYPES : List String :=
  ["image/png", "image/jpeg", "image/jpg", "image/webp", "image/avif"]

/-- Python `str.upper()` (the strings the application uppercases are
ASCII). -/
def pyUpper (s : String) : String := String.mk (s.toList.map Char.toUpper)

/-- Python `str.lower()` (the strings the application lowercases are
ASCII). -/
def pyLower (s : String) : String := String.mk (s.toList.map Char.toLower)

/-- The characters of a string after its last `'.'` (Python
`filename.rsplit('.', 1)[1]` when a dot is present). -/
def afterLastDot (cs : List Char) : List Char :=
  (cs.reverse.takeWhile (fun c => c ≠ '.')).reverse

/-- `allowed_file` (src/app.py lines 30-34): extension and declared
content type must both be on the allow-list. -/
def allowed_file (filename : String) (content_type : String) : Bool :=
  filename.toList.contains '.' &&
    decide (pyLower (String.mk (afterLastDot filename.toList)) ∈ ALLOWED_EXTENSIONS) &&
    decide (content_type ∈ ALLOWED_MIME_TYPES)

/-- `get_file_extension` (src/app.py lines 36-45): extension for the
requested format, defaulting to ".jpg". -/
def get_file_extension (format_type : String) : String :=
  let k := pyUpper format_type
  if k = "JPEG" then ".jpg"
  else if k = "JPG" then ".jpg"
  else if k = "PNG" then ".png"
  else if k = "WEBP" then ".webp"
  else if k = "AVIF" then ".avif"
  else ".jpg"

example : allowed_file "photo.PNG" "image/png" = true := by decide
example : allowed_file "photo.png" "text/html" = false := by decide
example : allowed_file "photo" "image/png" = false := by decide
example : allowed_file "archive.tar.gz" "image/png" = false := by decide
example : get_file_extension "webp" = ".webp" := by decide
example : get_file_extension "BMP" = ".jpg" := by decide

/-- Pillow's `MULDIV255` macro: exact byte-range division by 255 used by
`Image.paste` blending. -/
def muldiv255 (a b : Nat) : Nat := (a * b + 128 + (a * b + 128) / 256) / 256

/-- Pillow's `BLEND` macro: channel blend of background `i1` and pasted
image `i2` under mask value `m`. -/
def blendChan (m i1 i2 : Nat) : Nat := muldiv255 i1 (255 - m) + muldiv255 i2 m

/-- Channel view of a pixel once pasted into an RGB image (Pillow
converts the pasted image to the background's mode; `L`/`LA` replicate
the luminance, alpha is dropped). -/
def toRGBPix (m : Mode) (p : Pix) : Pix :=
  match m with
  | Mode.LA => Pix.mk p.r p.r p.r 255
  | Mode.L => Pix.mk p.r p.r p.r 255
  | _ => Pix.mk p.r p.g p.b 255

/-- `background.paste(image)` with no mask at the default box: the
pasted image, converted to the background mode, overwrites the
background on its extent. -/
def pasteNoMask (bg src : Img) : Img :=
  Img.mk bg.mode bg.width bg.height (fun x y =>
    if x < src.width ∧ y < src.height then toRGBPix src.mode (src.px x y) else bg.px x y)

/-- `background.paste(image, mask=...)` at the default box: per-pixel
`BLEND` of background and pasted image under the mask. -/
def pasteMask (bg src : Img) (mask : Nat → Nat → Nat) : Img :=
  Img.mk bg.mode bg.width bg.height (fun x y =>
    if x < src.width ∧ y < src.height then
      let m := mask x y
      let p := bg.px x y
      let q := toRGBPix src.mode (src.px x y)
      Pix.mk (blendChan m p.r q.r) (blendChan m p.g q.g) (blendChan m p.b q.b) 255
    else bg.px x y)

/-- `image.convert('RGBA')` on a palette image.  Palette images are
represented by their palette-expanded colours, so only the mode tag
changes. -/
def convertToRGBA (i : Img) : Img := Img.mk Mode.RGBA i.width i.height i.px

/-- The alpha-removal block of `convert_single_image` (src/app.py lines
52-58): for a JPEG target and an `RGBA`/`LA`/`P` source, paste the
source onto an opaque white RGB background; the alpha channel is used
as the paste mask only when the (possibly palette-expanded) source is
`RGBA`. -/
def rgba_to_rgb (output_format : String) (image : Img) : Img :=
  if (output_format = "JPEG" ∨ output_format = "JPG") ∧
      (image.mode = Mode.RGBA ∨ image.mode = Mode.LA ∨ image.mode = Mode.P) then
    let background := Img.mk Mode.RGB image.width image.height (fun _ _ => Pix.mk 255 255 255 255)
    let image2 := if image.mode = Mode.P then convertToRGBA image else image
    if image2.mode = Mode.RGBA then
      pasteMask background image2 (fun x y => (image2.px x y).a)
    else
      pasteNoMask background image2
  else image

/-- The format/parameter dispatch of `convert_single_image` (src/app.py
lines 63-78): PIL format name and save keyword arguments. -/
def save_params (output_format : String) : String × SaveKwargs :=
  if output_format = "JPEG" ∨ output_format = "JPG" then
    ("JPEG", SaveKwargs.mk (some 95) (some true) none)
  else if output_format = "PNG" then ("PNG", SaveKwargs.mk none (some true) none)
  else if output_format = "WEBP" then ("WEBP", SaveKwargs.mk (some 95) none (some false))
  else if output_format = "AVIF" then ("AVIF", SaveKwargs.mk (some 95) none none)
  else ("JPEG", SaveKwargs.mk none none none)

/-- Index of the last occurrence of `c` in `cs`, if any. -/
def lastIndexOf (cs : List Char) (c : Char) : Option Nat :=
  ((List.range cs.length).filter (fun i => cs[i]? = some c)).getLast?

/-- `os.path.splitext(p)[0]` (CPython `genericpath._splitext` with
separator `'/'`): drop the final extension unless every character
between the last separator and the last dot is itself a dot. -/
def splitextRoot (p : String) : String :=
  let cs := p.toList
  match lastIndexOf cs '.' with
  | none => p
  | some d =>
    let s0 := match lastIndexOf cs '/' with
      | none => 0
      | some s => s + 1
    if s0 ≤ d ∧ (List.range d).any (fun i => decide (s0 ≤ i) && decide (cs[i]? ≠ some '.')) then
      String.mk (cs.take d)
    else p

/-- Character of the base64 alphabet. -/
def b64char (n : Nat) : Char :=
  "ABCDEFGHIJKLMNOPQRSTUVWXYZabcdefghijklmnopqrstuvwxyz0123456789+/".toList.getD n '='

/-- Standard base64 of a byte list, three bytes at a time. -/
def b64encodeChars : List Nat → List Char
  | [] => []
  | [a] => [b64char (a / 4), b64char (a % 4 * 16), '=', '=']
  | [a, b] => [b64char (a / 4), b64char (a % 4 * 16 + b / 16), b64char (b % 16 * 4), '=']
  | a :: b :: c :: rest =>
    b64char (a / 4) :: b64char (a % 4 * 16 + b / 16) ::
      b64char (b % 16 * 4 + c / 64) :: b64char (c % 64) :: b64encodeChars rest

/-- `base64.b64encode(...).decode('utf-8')` (src/app.py line 95). -/
def b64encode (bs : List Nat) : String := String.mk (b64encodeChars bs)

deriving instance DecidableEq for Except

/-- Python `min(floor, ceil, key=key)` then `max(-, 1)`: Pillow's
`round_aspect` helper inside `Image.thumbnail`. -/
def round_aspect (q : ℚ) (key : ℤ → ℚ) : ℤ :=
  max (if key ⌊q⌋ ≤ key ⌈q⌉ then ⌊q⌋ else ⌈q⌉) 1

/-- Size computation of Pillow's `Image.thumbnail` at the call
`thumbnail((200, 200), LANCZOS)` (src/app.py line 92), with exact
rational arithmetic for the Python float arithmetic; a zero height
raises `ZeroDivisionError` in Python, modelled as an error. -/
def thumbnail_size (w h : Nat) : Except String (Nat × Nat) :=
  if 200 ≥ w ∧ 200 ≥ h then Except.ok (w, h)
  else if h = 0 then Except.error "division by zero"
  else
    let aspect : ℚ := (w : ℚ) / (h : ℚ)
    if (200 : ℚ) / 200 ≥ aspect then
      Except.ok ((round_aspect (200 * aspect) (fun n => |aspect - (n : ℚ) / 200|)).toNat, 200)
    else
      Except.ok (200,
        (round_aspect (200 / aspect)
          (fun n => if n = 0 then 0 else |aspect - (200 : ℚ) / (n : ℚ)|)).toNat)

/-- `thumbnail = image.copy(); thumbnail.thumbnail((200, 200), LANCZOS)`
(src/app.py lines 91-92): resize to the computed size unless it equals
the current size. -/
def thumbnailImg (lib : ImgLib) (image : Img) : Except String Img :=
  match thumbnail_size image.width image.height with
  | Except.error e => Except.error e
  | Except.ok s =>
    if s.1 = image.width ∧ s.2 = image.height then Except.ok image
    else Except.ok (Img.mk image.mode s.1 s.2 (lib.resample image s.1 s.2))

/-- The `'image/...'` mimetype literal of src/app.py line 102. -/
def mimetype_for (output_format : String) : String :=
  "image/" ++ (if pyLower output_format ≠ "jpg" then pyLower output_format else "jpeg")

/-- Outcome dictionary of `convert_single_image` (src/app.py lines
97-109). -/
inductive ConvResult where
  | success (filename : String) (data : List Nat) (preview : String) (mimetype : String)
  | failure (error : String) (filename : String)
deriving DecidableEq, Repr

/-- `convert_single_image` (src/app.py lines 47-109): decode, composite
alpha away for JPEG targets, encode, derive the output filename, build
the base64 JPEG preview; any failing step yields the failure
dictionary. -/
def convert_single_image (lib : ImgLib) (file_data : List Nat) (output_format : String)
    (original_filename : String) : ConvResult :=
  match lib.decode file_data with
  | Except.error e => ConvResult.failure e original_filename
  | Except.ok image0 =>
    let image := rgba_to_rgb output_format image0
    let fp := save_params output_format
    match lib.encode image fp.1 fp.2 with
    | Except.error e => ConvResult.failure e original_filename
    | Except.ok data =>
      let original_name := lib.secure_filename original_filename
      let name_without_ext := splitextRoot original_name
      let new_filename := name_without_ext ++ "_converted" ++ get_file_extension output_format
      match thumbnailImg lib image with
      | Except.error e => ConvResult.failure e original_filename
      | Except.ok thumbnail =>
        match lib.encode thumbnail "JPEG" (SaveKwargs.mk (some 85) none none) with
        | Except.error e => ConvResult.failure e original_filename
        | Except.ok pdata =>
          ConvResult.success new_filename data (b64encode pdata) (mimetype_for output_format)

example : splitextRoot "photo.png" = "photo" := by decide
example : splitextRoot ".bashrc" = ".bashrc" := by decide
example : splitextRoot "a.tar.gz" = "a.tar" := by decide
example : splitextRoot "noext" = "noext" := by decide
example : b64encode [77, 97, 110] = "TWFu" := by decide
example : b64encode [77, 97] = "TWE=" := by decide
example : b64encode [77] = "TQ==" := by decide
example : thumbnail_size 100 50 = Except.ok (100, 50) := by decide
example : thumbnail_size 400 200 = Except.ok (200, 100) := by
  norm_num [thumbnail_size, round_aspect]
  decide

/-- One part of the multipart `files` field (Flask `FileStorage`): a
`None` filename is modelled as the empty string, which Python treats
identically (both are falsy). -/
structure UploadedFile where
  filename : String
  content_type : String
  data : List Nat
deriving DecidableEq, Repr

/-- One entry of `converted_images[session_id]` (src/app.py lines
153-158). -/
structure StoredImage where
  id : String
  filename : String
  data : List Nat
  mimetype : String
deriving DecidableEq, Repr

/-- Python `dict` lookup on an association list. -/
def assocGet {α : Type} (m : List (String × α)) (k : String) : Option α :=
  match m with
  | [] => none
  | (k2, v) :: rest => if k2 = k then some v else assocGet rest k

/-- Python `dict` assignment: replace the value of an existing key in
place, otherwise append the new binding. -/
def assocUpsert {α : Type} (m : List (String × α)) (k : String) (v : α) : List (String × α) :=
  match m with
  | [] => [(k, v)]
  | (k2, v2) :: rest => if k2 = k then (k2, v) :: rest else (k2, v2) :: assocUpsert rest k v

/-- The module-level `converted_images` dict (src/app.py line 22). -/
abbrev Store := List (String × List StoredImage)

/-- A per-item entry of the `results` list (src/app.py lines 161-180). -/
inductive ItemResult where
  | ok (original_filename : String) (converted_filename : String) (preview : String)
      (download_id : String)
  | err (original_filename : String) (error : String)
deriving DecidableEq, Repr

/-- The fixed allow-list rejection message (src/app.py line 179). -/
def INVALID_TYPE_MSG : String :=
  "Invalid file type. Only AVIF, PNG, JPG, JPEG, and WebP are allowed."

/-- The `for file in files` loop of `convert_bulk_images` (src/app.py
lines 143-180): per item, skip on empty filename, reject on the
allow-list, otherwise convert; collect the per-item result records,
the stored artifacts (each under a fresh uuid, supplied here as
`uuids k` for the `k`-th success) and the success count. -/
def convert_loop (lib : ImgLib) (output_format : String) (uuids : Nat → String) :
    List UploadedFile → Nat → List ItemResult × List StoredImage × Nat
  | [], _ => ([], [], 0)
  | file :: rest, k =>
    if file.filename ≠ "" then
      if allowed_file file.filename file.content_type then
        match convert_single_image lib file.data output_format file.filename with
        | ConvResult.success fn data preview mt =>
          let image_id := uuids k
          let r := convert_loop lib output_format uuids rest (k + 1)
          (ItemResult.ok file.filename fn preview image_id :: r.1,
            StoredImage.mk image_id fn data mt :: r.2.1, r.2.2 + 1)
        | ConvResult.failure e _ =>
          let r := convert_loop lib output_format uuids rest k
          (ItemResult.err file.filename e :: r.1, r.2.1, r.2.2)
      else
        let r := convert_loop lib output_format uuids rest k
        (ItemResult.err file.filename INVALID_TYPE_MSG :: r.1, r.2.1, r.2.2)
    else convert_loop lib output_format uuids rest k

/-- JSON success body of `/convert` (src/app.py lines 182-187). -/
structure BulkResponse where
  session_id : String
  total_files : Nat
  successful_conversions : Nat
  results : List ItemResult
deriving DecidableEq, Repr

/-- A JSON error body together with its HTTP status code. -/
structure ErrResp where
  error : String
  code : Nat
deriving DecidableEq, Repr

/-- `convert_bulk_images` (src/app.py lines 116-190).  Flask state is
explicit: `st` is `converted_images`, `sess` the caller's
`session['current_conversion']`; `session_id` is the fresh
`uuid.uuid4()` of this call and `uuids` the supply of per-artifact
uuids.  A part list without the `files` field and an empty part list
coincide in Flask, so both 400 guards test emptiness. -/
def convert_bulk_images (lib : ImgLib) (files : List UploadedFile) (formField : Option String)
    (session_id : String) (uuids : Nat → String) (st : Store) (sess : Option String) :
    Except ErrResp BulkResponse × Store × Option String :=
  if files.isEmpty then (Except.error (ErrResp.mk "No files uploaded" 400), st, sess)
  else
    let output_format := pyUpper (match formField with | none => "JPEG" | some f => f)
    if files.isEmpty then (Except.error (ErrResp.mk "No files selected" 400), st, sess)
    else if output_format ∉ (["JPEG", "JPG", "PNG", "WEBP", "AVIF"] : List String) then
      (Except.error (ErrResp.mk "Invalid output format" 400), st, sess)
    else
      let r := convert_loop lib output_format uuids files 0
      (Except.ok (BulkResponse.mk session_id files.length r.2.2 r.1),
        assocUpsert st session_id r.2.1, some session_id)

/-- Response of `/download/<image_id>`. -/
inductive DlResp where
  | err (code : Nat) (msg : String)
  | file (data : List Nat) (download_name : String) (mimetype : String)
deriving DecidableEq, Repr

/-- `download_single_image` (src/app.py lines 192-219): resolve the
session binding, find the artifact by id, send it; 404 otherwise.  An
empty session id is falsy in Python, hence the extra guard.  The
handler performs no assignment, so the state is returned unchanged. -/
def download_single_image (st : Store) (sess : Option String) (image_id : String) :
    DlResp × Store × Option String :=
  match sess with
  | none => (DlResp.err 404 "No conversion session found", st, sess)
  | some session_id =>
    if session_id = "" then (DlResp.err 404 "No conversion session found", st, sess)
    else
      match assocGet st session_id with
      | none => (DlResp.err 404 "No conversion session found", st, sess)
      | some imgs =>
        match imgs.find? (fun img => img.id == image_id) with
        | none => (DlResp.err 404 "Image not found", st, sess)
        | some img => (DlResp.file img.data img.filename img.mimetype, st, sess)

/-- Response of `/download-zip`: the archive is kept as the ordered
list of `writestr` calls. -/
inductive ZipResp where
  | err (code : Nat) (msg : String)
  | zip (entries : List (String × List Nat)) (download_name : String)
deriving DecidableEq, Repr

/-- The `zip_file.writestr(img['filename'], img['data'])` loop
(src/app.py lines 235-237). -/
def zip_writes (imgs : List StoredImage) : List (String × List Nat) :=
  imgs.map (fun img => (img.filename, img.data))

/-- `zipfile`'s name resolution: the `NameToInfo` mapping is updated at
each `writestr`, so of entries sharing a name the last written one is
the one a by-name read (and hence a plain extraction) yields. -/
def zipNameMap (entries : List (String × List Nat)) : List (String × List Nat) :=
  entries.foldl (fun m e => assocUpsert m e.1 e.2) []

/-- `download_zip` (src/app.py lines 221-253): resolve the session
binding, 404 on a missing or empty batch, else archive every stored
artifact under its stored filename, named by timestamp `now`.  The
handler performs no assignment, so the state is returned unchanged. -/
def download_zip (st : Store) (sess : Option String) (now : String) :
    ZipResp × Store × Option String :=
  match sess with
  | none => (ZipResp.err 404 "No conversion session found", st, sess)
  | some session_id =>
    if session_id = "" then (ZipResp.err 404 "No conversion session found", st, sess)
    else
      match assocGet st session_id with
      | none => (ZipResp.err 404 "No conversion session found", st, sess)
      | some imgs =>
        if imgs.isEmpty then (ZipResp.err 404 "No converted images found", st, sess)
        else
          (ZipResp.zip (zip_writes imgs) ("converted_images_" ++ now ++ ".zip"), st, sess)

/-- A concrete executable stand-in for the external collaborators, used
to instantiate universally quantified theorems at concrete inputs: the
decoder reads `[mode, w, h]` followed by four bytes per pixel, the
encoder dumps dimensions and pixels, resampling samples the top-left
pixel, sanitization is the identity. -/
def testDecode (bs : List Nat) : Except String Img :=
  match bs with
  | m :: w :: h :: rest =>
    if m < 5 ∧ rest.length = 4 * (w * h) then
      Except.ok (Img.mk
        (match m with
          | 0 => Mode.RGB
          | 1 => Mode.RGBA
          | 2 => Mode.LA
          | 3 => Mode.L
          | _ => Mode.P)
        w h
        (fun x y => Pix.mk (rest.getD (4 * (y * w + x)) 0) (rest.getD (4 * (y * w + x) + 1) 0)
          (rest.getD (4 * (y * w + x) + 2) 0) (rest.getD (4 * (y * w + x) + 3) 0)))
    else Except.error "cannot identify image file"
  | _ => Except.error "cannot identify image file"

/-- Encoder of the test library: dimensions then pixel dump. -/
def testEncode (img : Img) (_fmt : String) (_kw : SaveKwargs) : Except String (List Nat) :=
  Except.ok (img.width :: img.height ::
    (List.range img.height).flatMap (fun y => (List.range img.width).flatMap
      (fun x => [(img.px x y).r, (img.px x y).g, (img.px x y).b, (img.px x y).a])))

/-- The concrete test instantiation of `ImgLib`. -/
def testLib : ImgLib :=
  ImgLib.mk testDecode testEncode (fun img _ _ _ _ => img.px 0 0) (fun s => s)

example :
    convert_single_image testLib [0, 1, 1, 10, 20, 30, 255] "PNG" "photo.png" =
      ConvResult.success "photo_converted.png" [1, 1, 10, 20, 30, 255]
        (b64encode [1, 1, 10, 20, 30, 255]) "image/png" := by decide

example :
    convert_single_image testLib [1, 1, 1, 0, 0, 0, 0] "JPEG" "img.png" =
      ConvResult.success "img_converted.jpg" [1, 1, 255, 255, 255, 255]
        (b64encode [1, 1, 255, 255, 255, 255]) "image/jpeg" := by decide

/-- Whether a per-item record is the success variant. -/
def isOkResult : ItemResult → Bool
  | ItemResult.ok _ _ _ _ => true
  | ItemResult.err _ _ => false

/-- The original filename a per-item record reports. -/
def resultOriginal : ItemResult → String
  | ItemResult.ok ofn _ _ _ => ofn
  | ItemResult.err ofn _ => ofn

/-- Blank out the freshly minted `download_id`, the only
uuid-supply-dependent part of a per-item record. -/
def eraseId : ItemResult → ItemResult
  | ItemResult.ok ofn cfn pv _ => ItemResult.ok ofn cfn pv ""
  | r => r

/-- The items of a batch that are actually processed: Python's
`if file.filename and file.filename != ''` guard. -/
def nonEmptyNamed (files : List UploadedFile) : List UploadedFile :=
  files.filter (fun f => decide (f.filename ≠ ""))

/-- The outcome the batch loop records for one processed item, with the
`download_id` blanked: allow-list rejection or the converter's
verdict. -/
def item_outcome (lib : ImgLib) (fmt : String) (f : UploadedFile) : ItemResult :=
  if allowed_file f.filename f.content_type then
    match convert_single_image lib f.data fmt f.filename with
    | ConvResult.success fn _ pv _ => ItemResult.ok f.filename fn pv ""
    | ConvResult.failure e _ => ItemResult.err f.filename e
  else ItemResult.err f.filename INVALID_TYPE_MSG

/-- Everything the batch loop guarantees, by one induction: one record
per processed item; the success count counts the success records and
the stored artifacts; and, modulo the minted ids, the records are the
per-item outcomes of the processed items in their input order. -/
theorem convert_loop_spec (lib : ImgLib) (fmt : String) (uuids : Nat → String)
    (files : List UploadedFile) (k : Nat) :
    (convert_loop lib fmt uuids files k).1.length = (nonEmptyNamed files).length ∧
    (convert_loop lib fmt uuids files k).2.2 =
      ((convert_loop lib fmt uuids files k).1.filter isOkResult).length ∧
    (convert_loop lib fmt uuids files k).2.1.length = (convert_loop lib fmt uuids files k).2.2 ∧
    (convert_loop lib fmt uuids files k).1.map eraseId =
      (nonEmptyNamed files).map (item_outcome lib fmt) := by
  induction files generalizing k with
  | nil => simp [convert_loop, nonEmptyNamed]
  | cons file rest ih =>
    by_cases hf : file.filename = ""
    · simpa [convert_loop, nonEmptyNamed, hf] using ih k
    · by_cases ha : allowed_file file.filename file.content_type
      · cases hc : convert_single_image lib file.data fmt file.filename with
        | success fn data preview mt =>
          obtain ⟨h1, h2, h3, h4⟩ := ih (k + 1)
          simp [convert_loop, nonEmptyNamed, hf, ha, hc, item_outcome, eraseId, isOkResult,
            h1, h2, h3, h4]
        | failure e ofn =>
          obtain ⟨h1, h2, h3, h4⟩ := ih k
          simp [convert_loop, nonEmptyNamed, hf, ha, hc, item_outcome, eraseId, isOkResult,
            h1, h2, h3, h4]
      · obtain ⟨h1, h2, h3, h4⟩ := ih k
        simp [convert_loop, nonEmptyNamed, hf, ha, item_outcome, eraseId, isOkResult,
          h1, h2, h3, h4]

theorem filter_length_split {α : Type} (p : α → Bool) (l : List α) :
    (l.filter p).length + (l.filter (fun a => !p a)).length = l.length := by
  induction l with
  | nil => simp
  | cons a t ih =>
    by_cases h : p a <;> simp [List.filter_cons, h] <;> omega

theorem assocGet_upsert_self {α : Type} (m : List (String × α)) (k : String) (v : α) :
    assocGet (assocUpsert m k v) k = some v := by
  induction m with
  | nil => simp [assocUpsert, assocGet]
  | cons kv rest ih =>
    obtain ⟨a, b⟩ := kv
    by_cases h : a = k <;> simp [assocUpsert, assocGet, h, ih]

theorem assocGet_upsert_ne {α : Type} (m : List (String × α)) (k k2 : String) (v : α)
    (h : k2 ≠ k) : assocGet (assocUpsert m k v) k2 = assocGet m k2 := by
  induction m with
  | nil =>
    simp [assocUpsert, assocGet]
    exact fun hh => h hh.symm
  | cons kv rest ih =>
    obtain ⟨a, b⟩ := kv
    by_cases h2 : a = k
    · subst h2
      simp [assocUpsert, assocGet, Ne.symm h]
    · by_cases h3 : a = k2
      · subst h3
        simp [assocUpsert, assocGet, h2, h]
      · simp [assocUpsert, assocGet, h2, h3, ih]

theorem resultOriginal_eraseId (t : ItemResult) : resultOriginal (eraseId t) = resultOriginal t := by
  cases t <;> rfl

theorem resultOriginal_item_outcome (lib : ImgLib) (fmt : String) (f : UploadedFile) :
    resultOriginal (item_outcome lib fmt f) = f.filename := by
  unfold item_outcome
  by_cases ha : allowed_file f.filename f.content_type
  · simp only [ha, if_true]
    cases convert_single_image lib f.data fmt f.filename <;> rfl
  · simp [ha, resultOriginal]

theorem eraseId_eq_err {t : ItemResult} {a b : String}
    (h : eraseId t = ItemResult.err a b) : t = ItemResult.err a b := by
  cases t with
  | ok o c p d => simp [eraseId] at h
  | err o e => exact h

/-- The ok-branch of `convert_bulk_images`, unfolded once: with at least
one file and a valid uppercased format, the response is built from
`convert_loop` and the store/session are updated to the fresh batch. -/
theorem convert_bulk_images_ok (lib : ImgLib) (files : List UploadedFile)
    (formField : Option String) (session_id : String) (uuids : Nat → String) (st : Store)
    (sess : Option String) (hne : files ≠ [])
    (hfmt : pyUpper (formField.getD "JPEG") ∈ (["JPEG", "JPG", "PNG", "WEBP", "AVIF"] : List String)) :
    convert_bulk_images lib files formField session_id uuids st sess =
      (Except.ok (BulkResponse.mk session_id files.length
          (convert_loop lib (pyUpper (formField.getD "JPEG")) uuids files 0).2.2
          (convert_loop lib (pyUpper (formField.getD "JPEG")) uuids files 0).1),
        assocUpsert st session_id
          (convert_loop lib (pyUpper (formField.getD "JPEG")) uuids files 0).2.1,
        some session_id) := by
  have hne2 : files.isEmpty = false := by simpa [List.isEmpty_iff] using hne
  cases formField with
  | none =>
    simp only [Option.getD] at hfmt
    simp only [List.mem_cons, List.not_mem_nil, or_false] at hfmt
    simp [convert_bulk_images, hne2]
    tauto
  | some f =>
    simp only [Option.getD] at hfmt
    simp only [List.mem_cons, List.not_mem_nil, or_false] at hfmt
    simp [convert_bulk_images, hne2]
    tauto

/-- C1 counterexample: a bulk call on the valid format "PNG" whose only
uploaded part has an empty filename.  No item is processed (N = 0, so
K = 0 failures and 0 successes), yet the response's `total_files` is 1,
not N: `total_files` counts all uploaded parts, skipped ones
included. -/
theorem claim_C1_counterexample :
    (convert_bulk_images testLib [UploadedFile.mk "" "image/png" []] (some "PNG") "sid"
        (fun _ => "aid") [] none).1 =
      Except.ok (BulkResponse.mk "sid" 1 0 []) ∧
    (nonEmptyNamed [UploadedFile.mk "" "image/png" []]).length = 0 := by decide

/-- C1 (amended): for a bulk call on a valid format, with N the number
of uploaded items with non-empty filename (the processed ones) and K of
them ending in a per-item failure record, the response carries exactly
N per-item records, in input order, with `successful_conversions`
equal to N - K; `total_files` however equals the raw number of
uploaded items, the skipped empty-filename ones included. -/
theorem claim_C1_batch_counts (lib : ImgLib) (files : List UploadedFile)
    (formField : Option String) (session_id : String) (uuids : Nat → String) (st : Store)
    (sess : Option String) (hne : files ≠ [])
    (hfmt : pyUpper (formField.getD "JPEG") ∈
      (["JPEG", "JPG", "PNG", "WEBP", "AVIF"] : List String)) :
    ∃ r st2 sess2,
      convert_bulk_images lib files formField session_id uuids st sess =
        (Except.ok r, st2, sess2) ∧
      r.results.length = (nonEmptyNamed files).length ∧
      r.successful_conversions =
        (nonEmptyNamed files).length - (r.results.filter (fun t => !isOkResult t)).length ∧
      r.total_files = files.length ∧
      r.results.map resultOriginal = (nonEmptyNamed files).map (fun f => f.filename) := by
  obtain ⟨h1, h2, h3, h4⟩ := convert_loop_spec lib (pyUpper (formField.getD "JPEG")) uuids files 0
  refine ⟨_, _, _,
    convert_bulk_images_ok lib files formField session_id uuids st sess hne hfmt,
    ?_, ?_, rfl, ?_⟩
  · exact h1
  · have hsplit := filter_length_split isOkResult
      (convert_loop lib (pyUpper (formField.getD "JPEG")) uuids files 0).1
    dsimp only
    omega
  · have h5 := congrArg (List.map resultOriginal) h4
    simp only [List.map_map] at h5
    simpa [Function.comp_def, resultOriginal_eraseId, resultOriginal_item_outcome] using h5

/-- Witness for `claim_C1_batch_counts`: one valid PNG item and one
allow-list-rejected item. -/
theorem claim_C1_batch_counts_witness :
    ([UploadedFile.mk "a.png" "image/png" [0, 1, 1, 10, 20, 30, 255],
        UploadedFile.mk "b.txt" "text/plain" []] : List UploadedFile) ≠ [] ∧
    pyUpper ((some "png").getD "JPEG") ∈ (["JPEG", "JPG", "PNG", "WEBP", "AVIF"] : List String) ∧
    ∃ r st2 sess2,
      convert_bulk_images testLib
        [UploadedFile.mk "a.png" "image/png" [0, 1, 1, 10, 20, 30, 255],
          UploadedFile.mk "b.txt" "text/plain" []] (some "png") "sid" (fun n => toString n)
        [] none = (Except.ok r, st2, sess2) ∧
      r.results.length = (nonEmptyNamed
        [UploadedFile.mk "a.png" "image/png" [0, 1, 1, 10, 20, 30, 255],
          UploadedFile.mk "b.txt" "text/plain" []]).length ∧
      r.successful_conversions = (nonEmptyNamed
        [UploadedFile.mk "a.png" "image/png" [0, 1, 1, 10, 20, 30, 255],
          UploadedFile.mk "b.txt" "text/plain" []]).length -
        (r.results.filter (fun t => !isOkResult t)).length ∧
      r.total_files = ([UploadedFile.mk "a.png" "image/png" [0, 1, 1, 10, 20, 30, 255],
          UploadedFile.mk "b.txt" "text/plain" []] : List UploadedFile).length ∧
      r.results.map resultOriginal = (nonEmptyNamed
        [UploadedFile.mk "a.png" "image/png" [0, 1, 1, 10, 20, 30, 255],
          UploadedFile.mk "b.txt" "text/plain" []]).map (fun f => f.filename) :=
  ⟨by decide, by decide,
    claim_C1_batch_counts testLib _ (some "png") "sid" (fun n => toString n) [] none
      (by decide) (by decide)⟩

theorem convert_loop_record (lib : ImgLib) (fmt : String) (uuids : Nat → String)
    (files : List UploadedFile) (i : Nat) (f : UploadedFile)
    (hi : (nonEmptyNamed files)[i]? = some f) :
    ((convert_loop lib fmt uuids files 0).1[i]?).map eraseId =
      some (item_outcome lib fmt f) := by
  obtain ⟨h1, h2, h3, h4⟩ := convert_loop_spec lib fmt uuids files 0
  have h5 := congrArg (fun l => l[i]?) h4
  simp only [List.getElem?_map] at h5
  simpa [hi] using h5

/-- C3: with a well-formed request (valid format, at least one file),
the call returns the success response unconditionally — even when every
processed item failed, in which case `successful_conversions` is 0 —
and an item whose conversion raises is recorded as a per-item failure
carrying the raised message, while every other processed item still
gets its own record. -/
theorem claim_C3_partial_failure_isolation (lib : ImgLib) (files : List UploadedFile)
    (formField : Option String) (session_id : String) (uuids : Nat → String) (st : Store)
    (sess : Option String) (hne : files ≠ [])
    (hfmt : pyUpper (formField.getD "JPEG") ∈
      (["JPEG", "JPG", "PNG", "WEBP", "AVIF"] : List String)) :
    ∃ r st2 sess2,
      convert_bulk_images lib files formField session_id uuids st sess =
        (Except.ok r, st2, sess2) ∧
      r.results.length = (nonEmptyNamed files).length ∧
      ((∀ t ∈ r.results, isOkResult t = false) → r.successful_conversions = 0) ∧
      (∀ (i : Nat) (f : UploadedFile) (e ofn : String), (nonEmptyNamed files)[i]? = some f →
        allowed_file f.filename f.content_type = true →
        convert_single_image lib f.data (pyUpper (formField.getD "JPEG")) f.filename =
          ConvResult.failure e ofn →
        r.results[i]? = some (ItemResult.err f.filename e)) := by
  obtain ⟨h1, h2, h3, h4⟩ := convert_loop_spec lib (pyUpper (formField.getD "JPEG")) uuids files 0
  refine ⟨_, _, _,
    convert_bulk_images_ok lib files formField session_id uuids st sess hne hfmt,
    h1, ?_, ?_⟩
  · intro hall
    dsimp only at hall ⊢
    rw [h2, List.length_eq_zero]
    rw [List.filter_eq_nil_iff]
    intro t ht
    simp [hall t ht]
  · intro i f e ofn hi ha hc
    have hr := convert_loop_record lib (pyUpper (formField.getD "JPEG")) uuids files i f hi
    have ho : item_outcome lib (pyUpper (formField.getD "JPEG")) f =
        ItemResult.err f.filename e := by
      simp [item_outcome, ha, hc]
    rw [ho] at hr
    dsimp only
    cases hx : (convert_loop lib (pyUpper (formField.getD "JPEG")) uuids files 0).1[i]? with
    | none => rw [hx] at hr; simp at hr
    | some t =>
      rw [hx] at hr
      simp only [Option.map_some'] at hr
      exact congrArg some (eraseId_eq_err (Option.some_inj.mp hr))

/-- Witness for `claim_C3_partial_failure_isolation`: a batch whose two
items are an undecodable image and a decodable one. -/
theorem claim_C3_partial_failure_isolation_witness :
    ([UploadedFile.mk "bad.png" "image/png" [9, 9],
        UploadedFile.mk "a.png" "image/png" [0, 1, 1, 10, 20, 30, 255]] : List UploadedFile) ≠ [] ∧
    pyUpper ((none : Option String).getD "JPEG") ∈
      (["JPEG", "JPG", "PNG", "WEBP", "AVIF"] : List String) ∧
    ∃ r st2 sess2,
      convert_bulk_images testLib
        [UploadedFile.mk "bad.png" "image/png" [9, 9],
          UploadedFile.mk "a.png" "image/png" [0, 1, 1, 10, 20, 30, 255]] none "sid"
        (fun n => toString n) [] none = (Except.ok r, st2, sess2) ∧
      r.results.length = (nonEmptyNamed
        [UploadedFile.mk "bad.png" "image/png" [9, 9],
          UploadedFile.mk "a.png" "image/png" [0, 1, 1, 10, 20, 30, 255]]).length ∧
      ((∀ t ∈ r.results, isOkResult t = false) → r.successful_conversions = 0) ∧
      (∀ (i : Nat) (f : UploadedFile) (e ofn : String), (nonEmptyNamed
          [UploadedFile.mk "bad.png" "image/png" [9, 9],
            UploadedFile.mk "a.png" "image/png" [0, 1, 1, 10, 20, 30, 255]])[i]? = some f →
        allowed_file f.filename f.content_type = true →
        convert_single_image testLib f.data
          (pyUpper ((none : Option String).getD "JPEG")) f.filename =
          ConvResult.failure e ofn →
        r.results[i]? = some (ItemResult.err f.filename e)) :=
  ⟨by decide, by decide,
    claim_C3_partial_failure_isolation testLib _ none "sid" (fun n => toString n) [] none
      (by decide) (by decide)⟩

/-- C4: a processed item (non-empty filename) reaches the single-item
converter exactly when `allowed_file` accepts its filename extension
and declared content type; a rejected item gets the fixed
invalid-file-type failure record, the batch continues, and no artifact
is stored for it (the stored artifacts number exactly the successes). -/
theorem claim_C4_allowlist_gate (lib : ImgLib) (files : List UploadedFile)
    (formField : Option String) (session_id : String) (uuids : Nat → String) (st : Store)
    (sess : Option String) (hne : files ≠ [])
    (hfmt : pyUpper (formField.getD "JPEG") ∈
      (["JPEG", "JPG", "PNG", "WEBP", "AVIF"] : List String)) :
    ∃ r st2 sess2 arts,
      convert_bulk_images lib files formField session_id uuids st sess =
        (Except.ok r, st2, sess2) ∧
      assocGet st2 session_id = some arts ∧
      arts.length = r.successful_conversions ∧
      r.results.length = (nonEmptyNamed files).length ∧
      ∀ (i : Nat) (f : UploadedFile), (nonEmptyNamed files)[i]? = some f →
        (allowed_file f.filename f.content_type = false →
          r.results[i]? = some (ItemResult.err f.filename INVALID_TYPE_MSG)) ∧
        (allowed_file f.filename f.content_type = true →
          (∀ (fn : String) (data : List Nat) (pv mt : String),
            convert_single_image lib f.data (pyUpper (formField.getD "JPEG")) f.filename =
              ConvResult.success fn data pv mt →
            (r.results[i]?).map eraseId = some (ItemResult.ok f.filename fn pv "")) ∧
          (∀ (e ofn : String),
            convert_single_image lib f.data (pyUpper (formField.getD "JPEG")) f.filename =
              ConvResult.failure e ofn →
            r.results[i]? = some (ItemResult.err f.filename e))) := by
  obtain ⟨h1, h2, h3, h4⟩ := convert_loop_spec lib (pyUpper (formField.getD "JPEG")) uuids files 0
  refine ⟨_, _, _, _,
    convert_bulk_images_ok lib files formField session_id uuids st sess hne hfmt,
    assocGet_upsert_self st session_id _, h3, h1, ?_⟩
  intro i f hi
  have hr := convert_loop_record lib (pyUpper (formField.getD "JPEG")) uuids files i f hi
  refine ⟨?_, ?_⟩
  · intro ha
    have ho : item_outcome lib (pyUpper (formField.getD "JPEG")) f =
        ItemResult.err f.filename INVALID_TYPE_MSG := by
      simp [item_outcome, ha]
    rw [ho] at hr
    dsimp only
    cases hx : (convert_loop lib (pyUpper (formField.getD "JPEG")) uuids files 0).1[i]? with
    | none => rw [hx] at hr; simp at hr
    | some t =>
      rw [hx] at hr
      simp only [Option.map_some'] at hr
      exact congrArg some (eraseId_eq_err (Option.some_inj.mp hr))
  · intro ha
    refine ⟨?_, ?_⟩
    · intro fn data pv mt hc
      have ho : item_outcome lib (pyUpper (formField.getD "JPEG")) f =
          ItemResult.ok f.filename fn pv "" := by
        simp [item_outcome, ha, hc]
      rw [ho] at hr
      exact hr
    · intro e ofn hc
      have ho : item_outcome lib (pyUpper (formField.getD "JPEG")) f =
          ItemResult.err f.filename e := by
        simp [item_outcome, ha, hc]
      rw [ho] at hr
      dsimp only
      cases hx : (convert_loop lib (pyUpper (formField.getD "JPEG")) uuids files 0).1[i]? with
      | none => rw [hx] at hr; simp at hr
      | some t =>
        rw [hx] at hr
        simp only [Option.map_some'] at hr
        exact congrArg some (eraseId_eq_err (Option.some_inj.mp hr))

/-- Witness for `claim_C4_allowlist_gate`: a rejected text file, a
convertible image and an undecodable image under target WEBP. -/
theorem claim_C4_allowlist_gate_witness :
    ([UploadedFile.mk "b.txt" "text/plain" [],
        UploadedFile.mk "a.png" "image/png" [0, 1, 1, 10, 20, 30, 255],
        UploadedFile.mk "bad.png" "image/png" [9, 9]] : List UploadedFile) ≠ [] ∧
    pyUpper ((some "WEBP").getD "JPEG") ∈
      (["JPEG", "JPG", "PNG", "WEBP", "AVIF"] : List String) ∧
    ∃ r st2 sess2 arts,
      convert_bulk_images testLib
        [UploadedFile.mk "b.txt" "text/plain" [],
          UploadedFile.mk "a.png" "image/png" [0, 1, 1, 10, 20, 30, 255],
          UploadedFile.mk "bad.png" "image/png" [9, 9]] (some "WEBP") "sid"
        (fun n => toString n) [] none = (Except.ok r, st2, sess2) ∧
      assocGet st2 "sid" = some arts ∧
      arts.length = r.successful_conversions ∧
      r.results.length = (nonEmptyNamed
        [UploadedFile.mk "b.txt" "text/plain" [],
          UploadedFile.mk "a.png" "image/png" [0, 1, 1, 10, 20, 30, 255],
          UploadedFile.mk "bad.png" "image/png" [9, 9]]).length ∧
      ∀ (i : Nat) (f : UploadedFile), (nonEmptyNamed
          [UploadedFile.mk "b.txt" "text/plain" [],
            UploadedFile.mk "a.png" "image/png" [0, 1, 1, 10, 20, 30, 255],
            UploadedFile.mk "bad.png" "image/png" [9, 9]])[i]? = some f →
        (allowed_file f.filename f.content_type = false →
          r.results[i]? = some (ItemResult.err f.filename INVALID_TYPE_MSG)) ∧
        (allowed_file f.filename f.content_type = true →
          (∀ (fn : String) (data : List Nat) (pv mt : String),
            convert_single_image testLib f.data (pyUpper ((some "WEBP").getD "JPEG")) f.filename =
              ConvResult.success fn data pv mt →
            (r.results[i]?).map eraseId = some (ItemResult.ok f.filename fn pv "")) ∧
          (∀ (e ofn : String),
            convert_single_image testLib f.data (pyUpper ((some "WEBP").getD "JPEG")) f.filename =
              ConvResult.failure e ofn →
            r.results[i]? = some (ItemResult.err f.filename e))) :=
  ⟨by decide, by decide,
    claim_C4_allowlist_gate testLib _ (some "WEBP") "sid" (fun n => toString n) [] none
      (by decide) (by decide)⟩

/-- C10: a missing format field is not rejected — the call behaves
exactly as if "JPEG" had been supplied — and the supplied string is
uppercased before validation, so acceptance is case-insensitive:
whenever the uppercased value is in the supported set the call returns
the success response, and only an uppercased value outside the set
yields the 400 invalid-format error (leaving store and session
untouched). -/
theorem claim_C10_format_defaulting (lib : ImgLib) (files : List UploadedFile)
    (formField : Option String) (session_id : String) (uuids : Nat → String) (st : Store)
    (sess : Option String) (hne : files ≠ []) :
    convert_bulk_images lib files none session_id uuids st sess =
      convert_bulk_images lib files (some "JPEG") session_id uuids st sess ∧
    (pyUpper (formField.getD "JPEG") ∈ (["JPEG", "JPG", "PNG", "WEBP", "AVIF"] : List String) →
      ∃ r st2, convert_bulk_images lib files formField session_id uuids st sess =
        (Except.ok r, st2, some session_id)) ∧
    (pyUpper (formField.getD "JPEG") ∉ (["JPEG", "JPG", "PNG", "WEBP", "AVIF"] : List String) →
      convert_bulk_images lib files formField session_id uuids st sess =
        (Except.error (ErrResp.mk "Invalid output format" 400), st, sess)) := by
  have hne2 : files.isEmpty = false := by simpa [List.isEmpty_iff] using hne
  refine ⟨rfl, ?_, ?_⟩
  · intro hfmt
    exact ⟨_, _, convert_bulk_images_ok lib files formField session_id uuids st sess hne hfmt⟩
  · intro hfmt
    cases formField with
    | none =>
      simp only [Option.getD] at hfmt
      simp only [List.mem_cons, List.not_mem_nil, or_false] at hfmt
      simp [convert_bulk_images, hne2]
      tauto
    | some f =>
      simp only [Option.getD] at hfmt
      simp only [List.mem_cons, List.not_mem_nil, or_false] at hfmt
      simp [convert_bulk_images, hne2]
      tauto

/-- Witness for `claim_C10_format_defaulting`: lowercase "png" is
accepted; the theorem also yields that "BMP" would be rejected. -/
theorem claim_C10_format_defaulting_witness :
    ([UploadedFile.mk "a.png" "image/png" [0, 1, 1, 10, 20, 30, 255]] : List UploadedFile) ≠ [] ∧
    (convert_bulk_images testLib [UploadedFile.mk "a.png" "image/png" [0, 1, 1, 10, 20, 30, 255]]
        none "sid" (fun n => toString n) [] none =
      convert_bulk_images testLib [UploadedFile.mk "a.png" "image/png" [0, 1, 1, 10, 20, 30, 255]]
        (some "JPEG") "sid" (fun n => toString n) [] none ∧
    (pyUpper ((some "png").getD "JPEG") ∈ (["JPEG", "JPG", "PNG", "WEBP", "AVIF"] : List String) →
      ∃ r st2, convert_bulk_images testLib
        [UploadedFile.mk "a.png" "image/png" [0, 1, 1, 10, 20, 30, 255]] (some "png") "sid"
        (fun n => toString n) [] none = (Except.ok r, st2, some "sid")) ∧
    (pyUpper ((some "png").getD "JPEG") ∉ (["JPEG", "JPG", "PNG", "WEBP", "AVIF"] : List String) →
      convert_bulk_images testLib
        [UploadedFile.mk "a.png" "image/png" [0, 1, 1, 10, 20, 30, 255]] (some "png") "sid"
        (fun n => toString n) [] none =
        (Except.error (ErrResp.mk "Invalid output format" 400), [], none))) :=
  ⟨by decide,
    claim_C10_format_defaulting testLib _ (some "png") "sid" (fun n => toString n) [] none
      (by decide)⟩

theorem download_single_image_state (st : Store) (sess : Option String) (image_id : String) :
    (download_single_image st sess image_id).2 = (st, sess) := by
  unfold download_single_image
  cases sess with
  | none => rfl
  | some sid =>
    by_cases h : sid = ""
    · simp [h]
    · simp only [h, if_false]
      split
      · rfl
      · split <;> rfl

theorem download_zip_state (st : Store) (sess : Option String) (now : String) :
    (download_zip st sess now).2 = (st, sess) := by
  unfold download_zip
  cases sess with
  | none => rfl
  | some sid =>
    by_cases h : sid = ""
    · simp [h]
    · simp only [h, if_false]
      cases assocGet st sid with
      | none => rfl
      | some imgs =>
        by_cases h2 : imgs.isEmpty <;> simp [h2]

/-- C7: retrieval without a session binding, or whose bound batch id is
absent from the store, answers 404 on both endpoints; a single download
whose artifact id is not in the bound batch answers 404; an archive
download of a bound batch whose artifact list is empty answers 404. -/
theorem claim_C7_retrieval_404 (st : Store) (sess : Option String) (image_id now : String) :
    (sess = none →
      (download_single_image st sess image_id).1 =
        DlResp.err 404 "No conversion session found" ∧
      (download_zip st sess now).1 = ZipResp.err 404 "No conversion session found") ∧
    (∀ (sid : String), sess = some sid → assocGet st sid = none →
      (download_single_image st sess image_id).1 =
        DlResp.err 404 "No conversion session found" ∧
      (download_zip st sess now).1 = ZipResp.err 404 "No conversion session found") ∧
    (∀ (sid : String) (imgs : List StoredImage), sess = some sid → sid ≠ "" →
      assocGet st sid = some imgs →
      imgs.find? (fun img => img.id == image_id) = none →
      (download_single_image st sess image_id).1 = DlResp.err 404 "Image not found") ∧
    (∀ (sid : String), sess = some sid → sid ≠ "" → assocGet st sid = some [] →
      (download_zip st sess now).1 = ZipResp.err 404 "No converted images found") := by
  refine ⟨?_, ?_, ?_, ?_⟩
  · rintro rfl
    exact ⟨rfl, rfl⟩
  · rintro sid rfl hget
    by_cases h : sid = ""
    · constructor <;> simp [download_single_image, download_zip, h]
    · constructor <;> simp [download_single_image, download_zip, h, hget]
  · rintro sid imgs rfl h hget hfind
    simp [download_single_image, h, hget, hfind]
  · rintro sid rfl h hget
    simp [download_zip, h, hget]

/-- Witness for `claim_C7_retrieval_404`: a store holding one batch with
one artifact, probed with a missing artifact id; all four hypotheses
are exercised across the conjuncts where they are satisfiable (the
no-session conjunct is instantiated in a second application below). -/
theorem claim_C7_retrieval_404_witness :
    ((some "sid" : Option String) = none →
      (download_single_image [("sid", [StoredImage.mk "a1" "x.jpg" [1] "image/jpeg"])]
          (some "sid") "zz").1 = DlResp.err 404 "No conversion session found" ∧
      (download_zip [("sid", [StoredImage.mk "a1" "x.jpg" [1] "image/jpeg"])]
          (some "sid") "t").1 = ZipResp.err 404 "No conversion session found") ∧
    (∀ (sid : String), (some "sid" : Option String) = some sid →
      assocGet [("sid", [StoredImage.mk "a1" "x.jpg" [1] "image/jpeg"])] sid = none →
      (download_single_image [("sid", [StoredImage.mk "a1" "x.jpg" [1] "image/jpeg"])]
          (some "sid") "zz").1 = DlResp.err 404 "No conversion session found" ∧
      (download_zip [("sid", [StoredImage.mk "a1" "x.jpg" [1] "image/jpeg"])]
          (some "sid") "t").1 = ZipResp.err 404 "No conversion session found") ∧
    (∀ (sid : String) (imgs : List StoredImage), (some "sid" : Option String) = some sid →
      sid ≠ "" →
      assocGet [("sid", [StoredImage.mk "a1" "x.jpg" [1] "image/jpeg"])] sid = some imgs →
      imgs.find? (fun img => img.id == "zz") = none →
      (download_single_image [("sid", [StoredImage.mk "a1" "x.jpg" [1] "image/jpeg"])]
          (some "sid") "zz").1 = DlResp.err 404 "Image not found") ∧
    (∀ (sid : String), (some "sid" : Option String) = some sid → sid ≠ "" →
      assocGet [("sid", [StoredImage.mk "a1" "x.jpg" [1] "image/jpeg"])] sid = some [] →
      (download_zip [("sid", [StoredImage.mk "a1" "x.jpg" [1] "image/jpeg"])]
          (some "sid") "t").1 = ZipResp.err 404 "No converted images found") :=
  claim_C7_retrieval_404 [("sid", [StoredImage.mk "a1" "x.jpg" [1] "image/jpeg"])]
    (some "sid") "zz" "t"

/-- C8: the two retrieval handlers return the store and the session
binding untouched, and a bulk-conversion call leaves the artifact list
of every batch other than the fresh one it creates unchanged — so a
batch is never modified after the call that created it completes. -/
theorem claim_C8_store_frame (st : Store) (sess : Option String) (image_id now : String)
    (lib : ImgLib) (files : List UploadedFile) (formField : Option String)
    (session_id : String) (uuids : Nat → String) (b : String) (hb : b ≠ session_id) :
    (download_single_image st sess image_id).2 = (st, sess) ∧
    (download_zip st sess now).2 = (st, sess) ∧
    assocGet (convert_bulk_images lib files formField session_id uuids st sess).2.1 b =
      assocGet st b := by
  refine ⟨download_single_image_state st sess image_id, download_zip_state st sess now, ?_⟩
  unfold convert_bulk_images
  split
  · rfl
  · dsimp only
    split
    · rfl
    · split <;> first
      | rfl
      | exact assocGet_upsert_ne st session_id b _ hb

/-- Witness for `claim_C8_store_frame`: a store holding one old batch,
a retrieval probe, and a bulk call creating a different batch. -/
theorem claim_C8_store_frame_witness :
    ("old" : String) ≠ "sid" ∧
    ((download_single_image [("old", [StoredImage.mk "a1" "x.jpg" [1] "image/jpeg"])]
        (some "old") "a1").2 = ([("old", [StoredImage.mk "a1" "x.jpg" [1] "image/jpeg"])],
          some "old") ∧
    (download_zip [("old", [StoredImage.mk "a1" "x.jpg" [1] "image/jpeg"])]
        (some "old") "t").2 = ([("old", [StoredImage.mk "a1" "x.jpg" [1] "image/jpeg"])],
          some "old") ∧
    assocGet (convert_bulk_images testLib
        [UploadedFile.mk "a.png" "image/png" [0, 1, 1, 10, 20, 30, 255]] (some "PNG") "sid"
        (fun n => toString n) [("old", [StoredImage.mk "a1" "x.jpg" [1] "image/jpeg"])]
        (some "old")).2.1 "old" =
      assocGet [("old", [StoredImage.mk "a1" "x.jpg" [1] "image/jpeg"])] "old") :=
  ⟨by decide,
    claim_C8_store_frame [("old", [StoredImage.mk "a1" "x.jpg" [1] "image/jpeg"])] (some "old")
      "a1" "t" testLib [UploadedFile.mk "a.png" "image/png" [0, 1, 1, 10, 20, 30, 255]]
      (some "PNG") "sid" (fun n => toString n) "old" (by decide)⟩

/-- The value of the last binding of `k` in a raw entry list (what a
zip reader resolves a duplicated name to). -/
def assocGetLast {α : Type} (m : List (String × α)) (k : String) : Option α :=
  match m with
  | [] => none
  | (k2, v) :: rest =>
    match assocGetLast rest k with
    | some v2 => some v2
    | none => if k2 = k then some v else none

theorem foldl_upsert_get {α : Type} (entries : List (String × α)) (m : List (String × α))
    (nm : String) :
    assocGet (entries.foldl (fun acc e => assocUpsert acc e.1 e.2) m) nm =
      match assocGetLast entries nm with
      | some v => some v
      | none => assocGet m nm := by
  induction entries generalizing m with
  | nil => simp [assocGetLast]
  | cons e rest ih =>
    obtain ⟨a, v⟩ := e
    simp only [List.foldl_cons, ih]
    cases hlast : assocGetLast rest nm with
    | some w => simp [assocGetLast, hlast]
    | none =>
      by_cases h : a = nm
      · subst h
        simp [assocGetLast, hlast, assocGet_upsert_self]
      · simp [assocGetLast, hlast, h,
          assocGet_upsert_ne m a nm v (fun hh => h hh.symm)]

/-- The keys of an association list. -/
def assocKeys {α : Type} (m : List (String × α)) : List String := m.map Prod.fst

theorem assocUpsert_length_not_mem {α : Type} (m : List (String × α)) (k : String) (v : α)
    (h : k ∉ assocKeys m) : (assocUpsert m k v).length = m.length + 1 := by
  induction m with
  | nil => simp [assocUpsert]
  | cons e rest ih =>
    obtain ⟨a, w⟩ := e
    simp only [assocKeys, List.map_cons, List.mem_cons] at h
    push_neg at h
    simp [assocUpsert, Ne.symm h.1, ih (by simpa [assocKeys] using h.2)]

theorem assocUpsert_keys_not_mem {α : Type} (m : List (String × α)) (k : String) (v : α)
    (h : k ∉ assocKeys m) : assocKeys (assocUpsert m k v) = assocKeys m ++ [k] := by
  induction m with
  | nil => simp [assocUpsert, assocKeys]
  | cons e rest ih =>
    obtain ⟨a, w⟩ := e
    simp only [assocKeys, List.map_cons, List.mem_cons] at h
    push_neg at h
    have ih2 := ih (by simpa [assocKeys] using h.2)
    simp only [assocKeys] at ih2
    simp [assocUpsert, assocKeys, Ne.symm h.1, ih2]

theorem foldl_upsert_length {α : Type} (entries : List (String × α)) (m : List (String × α))
    (hnd : (entries.map Prod.fst).Nodup) (hdisj : ∀ e ∈ entries, e.1 ∉ assocKeys m) :
    (entries.foldl (fun acc e => assocUpsert acc e.1 e.2) m).length =
      m.length + entries.length := by
  induction entries generalizing m with
  | nil => simp
  | cons e rest ih =>
    obtain ⟨a, v⟩ := e
    simp only [List.map_cons, List.nodup_cons] at hnd
    have hm : a ∉ assocKeys m := hdisj (a, v) (List.mem_cons_self _ _)
    have hlen := assocUpsert_length_not_mem m a v hm
    have hkeys := assocUpsert_keys_not_mem m a v hm
    simp only [List.foldl_cons]
    rw [ih (assocUpsert m a v) hnd.2]
    · rw [hlen]
      simp only [List.length_cons]
      omega
    · intro e2 he2
      rw [hkeys]
      simp only [List.mem_append, List.mem_singleton]
      push_neg
      refine ⟨hdisj e2 (List.mem_cons_of_mem _ he2), ?_⟩
      intro hcontra
      exact hnd.1 (hcontra ▸ List.mem_map_of_mem Prod.fst he2)

example : assocGet (zipNameMap [("a.jpg", [1]), ("a.jpg", [2])]) "a.jpg" = some [2] := by decide
example : (zipNameMap [("a.jpg", [1]), ("a.jpg", [2])]).length = 1 := by decide

/-- C6: the archive built for a bound non-empty batch of M artifacts
performs one write per artifact — the artifact's bytes under its stored
filename, M writes in all — and the archive's by-name resolution (what
extraction uses) maps each name to the last write under that name, so
duplicate-named entries collapse, and with M distinct filenames the
resolved archive has exactly M entries. -/
theorem claim_C6_zip_archive (st : Store) (sess : Option String) (now sid : String)
    (imgs : List StoredImage) (hs : sess = some sid) (hsid : sid ≠ "")
    (hget : assocGet st sid = some imgs) (hne : imgs ≠ []) :
    (download_zip st sess now).1 =
      ZipResp.zip (zip_writes imgs) ("converted_images_" ++ now ++ ".zip") ∧
    zip_writes imgs = imgs.map (fun img => (img.filename, img.data)) ∧
    (zip_writes imgs).length = imgs.length ∧
    (∀ (nm : String), assocGet (zipNameMap (zip_writes imgs)) nm =
      assocGetLast (zip_writes imgs) nm) ∧
    ((imgs.map (fun img => img.filename)).Nodup →
      (zipNameMap (zip_writes imgs)).length = imgs.length) := by
  subst hs
  have hne2 : imgs.isEmpty = false := by simpa [List.isEmpty_iff] using hne
  refine ⟨?_, rfl, by simp [zip_writes], ?_, ?_⟩
  · simp [download_zip, hsid, hget, hne2]
  · intro nm
    have h := foldl_upsert_get (zip_writes imgs) [] nm
    rw [zipNameMap, h]
    cases assocGetLast (zip_writes imgs) nm <;> simp [assocGet]
  · intro hnd
    have hnd2 : ((zip_writes imgs).map Prod.fst).Nodup := by
      simpa [zip_writes, List.map_map, Function.comp_def] using hnd
    have hlen := foldl_upsert_length (zip_writes imgs) [] hnd2 (by simp [assocKeys])
    simpa [zipNameMap, zip_writes] using hlen

/-- Witness for `claim_C6_zip_archive`: a bound batch with two
artifacts. -/
theorem claim_C6_zip_archive_witness :
    (some "sid" : Option String) = some "sid" ∧ ("sid" : String) ≠ "" ∧
    assocGet [("sid", [StoredImage.mk "a1" "x.jpg" [1] "image/jpeg",
      StoredImage.mk "a2" "y.jpg" [2] "image/jpeg"])] "sid" =
      some [StoredImage.mk "a1" "x.jpg" [1] "image/jpeg",
        StoredImage.mk "a2" "y.jpg" [2] "image/jpeg"] ∧
    ((download_zip [("sid", [StoredImage.mk "a1" "x.jpg" [1] "image/jpeg",
        StoredImage.mk "a2" "y.jpg" [2] "image/jpeg"])] (some "sid") "20240101").1 =
      ZipResp.zip (zip_writes [StoredImage.mk "a1" "x.jpg" [1] "image/jpeg",
        StoredImage.mk "a2" "y.jpg" [2] "image/jpeg"])
        ("converted_images_" ++ "20240101" ++ ".zip") ∧
    zip_writes [StoredImage.mk "a1" "x.jpg" [1] "image/jpeg",
        StoredImage.mk "a2" "y.jpg" [2] "image/jpeg"] =
      [StoredImage.mk "a1" "x.jpg" [1] "image/jpeg",
        StoredImage.mk "a2" "y.jpg" [2] "image/jpeg"].map (fun img => (img.filename, img.data)) ∧
    (zip_writes [StoredImage.mk "a1" "x.jpg" [1] "image/jpeg",
        StoredImage.mk "a2" "y.jpg" [2] "image/jpeg"]).length = 2 ∧
    (∀ (nm : String), assocGet (zipNameMap (zip_writes
        [StoredImage.mk "a1" "x.jpg" [1] "image/jpeg",
          StoredImage.mk "a2" "y.jpg" [2] "image/jpeg"])) nm =
      assocGetLast (zip_writes [StoredImage.mk "a1" "x.jpg" [1] "image/jpeg",
        StoredImage.mk "a2" "y.jpg" [2] "image/jpeg"]) nm) ∧
    (([StoredImage.mk "a1" "x.jpg" [1] "image/jpeg",
        StoredImage.mk "a2" "y.jpg" [2] "image/jpeg"].map (fun img => img.filename)).Nodup →
      (zipNameMap (zip_writes [StoredImage.mk "a1" "x.jpg" [1] "image/jpeg",
        StoredImage.mk "a2" "y.jpg" [2] "image/jpeg"])).length = 2)) :=
  ⟨rfl, by decide, by decide,
    claim_C6_zip_archive
      [("sid", [StoredImage.mk "a1" "x.jpg" [1] "image/jpeg",
        StoredImage.mk "a2" "y.jpg" [2] "image/jpeg"])] (some "sid") "20240101" "sid"
      [StoredImage.mk "a1" "x.jpg" [1] "image/jpeg",
        StoredImage.mk "a2" "y.jpg" [2] "image/jpeg"] rfl (by decide) (by decide) (by decide)⟩

theorem muldiv255_zero (c : Nat) : muldiv255 c 0 = 0 := by simp [muldiv255]

theorem muldiv255_255 (c : Nat) (hc : c ≤ 255) : muldiv255 c 255 = c := by
  interval_cases c <;> rfl

/-- C2 counterexample: an `LA` source with a fully transparent black
pixel.  The code pastes `LA` sources with no mask (the mask is used
only for `RGBA`), so the luminance lands opaquely and the fully
transparent region comes out black, not opaque white. -/
theorem claim_C2_counterexample :
    (Img.mk Mode.LA 1 1 (fun _ _ => Pix.mk 0 0 0 0)).mode = Mode.LA ∧
    ((Img.mk Mode.LA 1 1 (fun _ _ => Pix.mk 0 0 0 0)).px 0 0).a = 0 ∧
    (rgba_to_rgb "JPEG" (Img.mk Mode.LA 1 1 (fun _ _ => Pix.mk 0 0 0 0))).px 0 0 =
      Pix.mk 0 0 0 255 ∧
    (rgba_to_rgb "JPEG" (Img.mk Mode.LA 1 1 (fun _ _ => Pix.mk 0 0 0 0))).px 0 0 ≠
      Pix.mk 255 255 255 255 := by decide

/-- C2 (amended): for a JPEG/JPG target, the alpha-removal step yields
an RGB image of identical dimensions for all of `RGBA`, `LA` and `P`
sources.  `RGBA` and (palette-expanded) `P` sources are composited over
the opaque white background through their alpha mask, so fully
transparent pixels come out opaque white; `LA` sources however are
pasted without a mask: their alpha is discarded and the luminance is
replicated opaquely, whatever the alpha was. -/
theorem claim_C2_alpha_composite (output_format : String) (image : Img)
    (hf : output_format = "JPEG" ∨ output_format = "JPG") :
    ((image.mode = Mode.RGBA ∨ image.mode = Mode.P) →
      (rgba_to_rgb output_format image).mode = Mode.RGB ∧
      (rgba_to_rgb output_format image).width = image.width ∧
      (rgba_to_rgb output_format image).height = image.height ∧
      (∀ (x y : Nat), x < image.width → y < image.height → (image.px x y).a = 0 →
        (rgba_to_rgb output_format image).px x y = Pix.mk 255 255 255 255)) ∧
    (image.mode = Mode.LA →
      (rgba_to_rgb output_format image).mode = Mode.RGB ∧
      (rgba_to_rgb output_format image).width = image.width ∧
      (rgba_to_rgb output_format image).height = image.height ∧
      (∀ (x y : Nat), x < image.width → y < image.height →
        (rgba_to_rgb output_format image).px x y =
          Pix.mk (image.px x y).r (image.px x y).r (image.px x y).r 255)) := by
  constructor
  · intro hm
    have hcond : (output_format = "JPEG" ∨ output_format = "JPG") ∧
        (image.mode = Mode.RGBA ∨ image.mode = Mode.LA ∨ image.mode = Mode.P) := by
      rcases hm with h | h <;> exact ⟨hf, by simp [h]⟩
    rcases hm with hm | hm
    · have hnp : ¬ image.mode = Mode.P := by rw [hm]; intro hcontra; cases hcontra
      rw [rgba_to_rgb, if_pos hcond, if_neg hnp, if_pos hm]
      refine ⟨rfl, rfl, rfl, ?_⟩
      intro x y hx hy ha
      simp only [pasteMask]
      rw [if_pos ⟨hx, hy⟩]
      simp only [ha, blendChan, muldiv255_zero, Nat.sub_zero,
        muldiv255_255 255 (le_refl 255), Nat.add_zero]
    · rw [rgba_to_rgb, if_pos hcond, if_pos hm]
      have hm2 : (convertToRGBA image).mode = Mode.RGBA := rfl
      rw [if_pos hm2]
      refine ⟨rfl, rfl, rfl, ?_⟩
      intro x y hx hy ha
      simp only [pasteMask, convertToRGBA]
      rw [if_pos ⟨hx, hy⟩]
      simp [ha, blendChan, muldiv255_zero, muldiv255_255 255 (le_refl 255), toRGBPix]
  · intro hm
    have hcond : (output_format = "JPEG" ∨ output_format = "JPG") ∧
        (image.mode = Mode.RGBA ∨ image.mode = Mode.LA ∨ image.mode = Mode.P) :=
      ⟨hf, by simp [hm]⟩
    have hnp : ¬ image.mode = Mode.P := by rw [hm]; intro hcontra; cases hcontra
    have hnr : ¬ image.mode = Mode.RGBA := by rw [hm]; intro hcontra; cases hcontra
    rw [rgba_to_rgb, if_pos hcond, if_neg hnp, if_neg hnr]
    refine ⟨rfl, rfl, rfl, ?_⟩
    intro x y hx hy
    simp only [pasteNoMask]
    rw [if_pos ⟨hx, hy⟩, hm]
    rfl

/-- Witness for `claim_C2_alpha_composite`: a 1x1 fully transparent
RGBA image under target JPEG. -/
theorem claim_C2_alpha_composite_witness :
    (("JPEG" : String) = "JPEG" ∨ ("JPEG" : String) = "JPG") ∧
    ((((Img.mk Mode.RGBA 1 1 (fun _ _ => Pix.mk 7 8 9 0)).mode = Mode.RGBA ∨
        (Img.mk Mode.RGBA 1 1 (fun _ _ => Pix.mk 7 8 9 0)).mode = Mode.P) →
      (rgba_to_rgb "JPEG" (Img.mk Mode.RGBA 1 1 (fun _ _ => Pix.mk 7 8 9 0))).mode = Mode.RGB ∧
      (rgba_to_rgb "JPEG" (Img.mk Mode.RGBA 1 1 (fun _ _ => Pix.mk 7 8 9 0))).width =
        (Img.mk Mode.RGBA 1 1 (fun _ _ => Pix.mk 7 8 9 0)).width ∧
      (rgba_to_rgb "JPEG" (Img.mk Mode.RGBA 1 1 (fun _ _ => Pix.mk 7 8 9 0))).height =
        (Img.mk Mode.RGBA 1 1 (fun _ _ => Pix.mk 7 8 9 0)).height ∧
      (∀ (x y : Nat), x < (Img.mk Mode.RGBA 1 1 (fun _ _ => Pix.mk 7 8 9 0)).width →
        y < (Img.mk Mode.RGBA 1 1 (fun _ _ => Pix.mk 7 8 9 0)).height →
        ((Img.mk Mode.RGBA 1 1 (fun _ _ => Pix.mk 7 8 9 0)).px x y).a = 0 →
        (rgba_to_rgb "JPEG" (Img.mk Mode.RGBA 1 1 (fun _ _ => Pix.mk 7 8 9 0))).px x y =
          Pix.mk 255 255 255 255)) ∧
    ((Img.mk Mode.RGBA 1 1 (fun _ _ => Pix.mk 7 8 9 0)).mode = Mode.LA →
      (rgba_to_rgb "JPEG" (Img.mk Mode.RGBA 1 1 (fun _ _ => Pix.mk 7 8 9 0))).mode = Mode.RGB ∧
      (rgba_to_rgb "JPEG" (Img.mk Mode.RGBA 1 1 (fun _ _ => Pix.mk 7 8 9 0))).width =
        (Img.mk Mode.RGBA 1 1 (fun _ _ => Pix.mk 7 8 9 0)).width ∧
      (rgba_to_rgb "JPEG" (Img.mk Mode.RGBA 1 1 (fun _ _ => Pix.mk 7 8 9 0))).height =
        (Img.mk Mode.RGBA 1 1 (fun _ _ => Pix.mk 7 8 9 0)).height ∧
      (∀ (x y : Nat), x < (Img.mk Mode.RGBA 1 1 (fun _ _ => Pix.mk 7 8 9 0)).width →
        y < (Img.mk Mode.RGBA 1 1 (fun _ _ => Pix.mk 7 8 9 0)).height →
        (rgba_to_rgb "JPEG" (Img.mk Mode.RGBA 1 1 (fun _ _ => Pix.mk 7 8 9 0))).px x y =
          Pix.mk ((Img.mk Mode.RGBA 1 1 (fun _ _ => Pix.mk 7 8 9 0)).px x y).r
            ((Img.mk Mode.RGBA 1 1 (fun _ _ => Pix.mk 7 8 9 0)).px x y).r
            ((Img.mk Mode.RGBA 1 1 (fun _ _ => Pix.mk 7 8 9 0)).px x y).r 255))) :=
  ⟨Or.inl rfl, claim_C2_alpha_composite "JPEG" (Img.mk Mode.RGBA 1 1 (fun _ _ => Pix.mk 7 8 9 0))
    (Or.inl rfl)⟩

/-- C5: a successful conversion's filename is the sanitized original
name, extension dropped, plus "_converted" plus the Format Policy
extension, and its mimetype is "image/" plus the lowercased format with
"jpg" normalized to "jpeg"; the policy extension map sends JPEG/JPG to
".jpg", PNG to ".png", WEBP to ".webp", AVIF to ".avif" and any other
name to ".jpg". -/
theorem claim_C5_naming (lib : ImgLib) (file_data : List Nat) (output_format : String)
    (original_filename : String) (fn : String) (data : List Nat) (pv mt : String)
    (h : convert_single_image lib file_data output_format original_filename =
      ConvResult.success fn data pv mt) :
    fn = splitextRoot (lib.secure_filename original_filename) ++ "_converted" ++
      get_file_extension output_format ∧
    mt = "image/" ++ (if pyLower output_format ≠ "jpg" then pyLower output_format else "jpeg") ∧
    get_file_extension "JPEG" = ".jpg" ∧ get_file_extension "JPG" = ".jpg" ∧
    get_file_extension "PNG" = ".png" ∧ get_file_extension "WEBP" = ".webp" ∧
    get_file_extension "AVIF" = ".avif" ∧
    (∀ (s : String), pyUpper s ∉ (["JPEG", "JPG", "PNG", "WEBP", "AVIF"] : List String) →
      get_file_extension s = ".jpg") := by
  rw [convert_single_image] at h
  split at h
  · cases h
  · dsimp only at h
    split at h
    · cases h
    · split at h
      · cases h
      · split at h
        · cases h
        · obtain ⟨h1, h2, h3, h4⟩ := ConvResult.success.inj h
          refine ⟨h1.symm, h4.symm, rfl, rfl, rfl, rfl, rfl, ?_⟩
          intro s hs
          simp only [List.mem_cons, List.not_mem_nil, or_false] at hs
          push_neg at hs
          obtain ⟨n1, n2, n3, n4, n5⟩ := hs
          simp [get_file_extension, n1, n2, n3, n4, n5]

/-- Witness for `claim_C5_naming`: a 1x1 RGB image converted to PNG. -/
theorem claim_C5_naming_witness :
    convert_single_image testLib [0, 1, 1, 10, 20, 30, 255] "PNG" "photo.png" =
      ConvResult.success "photo_converted.png" [1, 1, 10, 20, 30, 255]
        (b64encode [1, 1, 10, 20, 30, 255]) "image/png" ∧
    ("photo_converted.png" : String) =
      splitextRoot (testLib.secure_filename "photo.png") ++ "_converted" ++
        get_file_extension "PNG" ∧
    ("image/png" : String) =
      "image/" ++ (if pyLower "PNG" ≠ "jpg" then pyLower "PNG" else "jpeg") ∧
    get_file_extension "JPEG" = ".jpg" ∧ get_file_extension "JPG" = ".jpg" ∧
    get_file_extension "PNG" = ".png" ∧ get_file_extension "WEBP" = ".webp" ∧
    get_file_extension "AVIF" = ".avif" ∧
    (∀ (s : String), pyUpper s ∉ (["JPEG", "JPG", "PNG", "WEBP", "AVIF"] : List String) →
      get_file_extension s = ".jpg") :=
  ⟨by decide,
    claim_C5_naming testLib [0, 1, 1, 10, 20, 30, 255] "PNG" "photo.png"
      "photo_converted.png" [1, 1, 10, 20, 30, 255] (b64encode [1, 1, 10, 20, 30, 255])
      "image/png" (by decide)⟩

theorem round_aspect_bounds (q : ℚ) (key : ℤ → ℚ) (hq : 0 < q) :
    1 ≤ round_aspect q key ∧ round_aspect q key ≤ ⌈q⌉ ∧
      |((round_aspect q key : ℤ) : ℚ) - q| < 1 := by
  have hceil1 : 1 ≤ ⌈q⌉ := by
    have := Int.ceil_pos.mpr hq
    omega
  have hfc : ⌊q⌋ ≤ ⌈q⌉ := Int.floor_le_ceil q
  have hple : (if key ⌊q⌋ ≤ key ⌈q⌉ then ⌊q⌋ else ⌈q⌉) ≤ ⌈q⌉ := by
    split
    · exact hfc
    · exact le_refl _
  unfold round_aspect
  refine ⟨le_max_right _ _, max_le hple hceil1, ?_⟩
  by_cases h1 : (1 : ℚ) ≤ q
  · have hfl1 : 1 ≤ ⌊q⌋ := by
      rw [Int.le_floor]
      exact_mod_cast h1
    have hp1 : (1 : ℤ) ≤ (if key ⌊q⌋ ≤ key ⌈q⌉ then ⌊q⌋ else ⌈q⌉) := by
      split
      · exact hfl1
      · exact hceil1
    rw [max_eq_left hp1, abs_sub_lt_iff]
    have hfle := Int.floor_le q
    have hflt := Int.sub_one_lt_floor q
    have hcle := Int.le_ceil q
    have hclt := Int.ceil_lt_add_one q
    constructor
    · split
      · linarith
      · push_cast at hclt ⊢
        linarith
    · split
      · push_cast at hflt ⊢
        linarith
      · push_cast at hcle ⊢
        linarith
  · push_neg at h1
    have hcle1 : ⌈q⌉ ≤ 1 := by
      rw [Int.ceil_le]
      exact_mod_cast h1.le
    have hple1 : (if key ⌊q⌋ ≤ key ⌈q⌉ then ⌊q⌋ else ⌈q⌉) ≤ 1 := le_trans hple hcle1
    rw [max_eq_right hple1, abs_sub_lt_iff]
    constructor
    · push_cast
      linarith
    · push_cast
      linarith

theorem thumbnail_size_spec (w h x y : Nat) (hw : 1 ≤ w) (hh : 1 ≤ h)
    (heq : thumbnail_size w h = Except.ok (x, y)) :
    1 ≤ x ∧ x ≤ 200 ∧ 1 ≤ y ∧ y ≤ 200 ∧
      |(x : ℤ) * h - (y : ℤ) * w| < ((max w h : Nat) : ℤ) := by
  have hhQ : (0 : ℚ) < h := by exact_mod_cast hh
  have hwQ : (0 : ℚ) < w := by exact_mod_cast hw
  rw [thumbnail_size] at heq
  split at heq
  · rename_i hsmall
    obtain ⟨rfl, rfl⟩ := Prod.mk.injEq .. ▸ Except.ok.inj heq
    refine ⟨hw, hsmall.1, hh, hsmall.2, ?_⟩
    have hmax : 1 ≤ max w h := le_trans hw (le_max_left w h)
    rw [mul_comm]
    simp only [sub_self, abs_zero]
    exact_mod_cast hmax
  · split at heq
    · cases heq
    · rename_i hsmall hh0
      dsimp only at heq
      split at heq
      · rename_i hbr
        have hwh : w ≤ h := by
          rw [div_self (by norm_num : (200 : ℚ) ≠ 0)] at hbr
          have := (div_le_one hhQ).mp hbr
          exact_mod_cast this
        obtain ⟨rfl, rfl⟩ := Prod.mk.injEq .. ▸ Except.ok.inj heq
        have hq0 : (0 : ℚ) < 200 * ((w : ℚ) / h) := by positivity
        obtain ⟨hr1, hr2, hr3⟩ :=
          round_aspect_bounds (200 * ((w : ℚ) / h))
            (fun n => |(w : ℚ) / h - (n : ℚ) / 200|) hq0
        set p := round_aspect (200 * ((w : ℚ) / h))
          (fun n => |(w : ℚ) / h - (n : ℚ) / 200|) with hpdef
        have hq200 : 200 * ((w : ℚ) / h) ≤ 200 := by
          have hle1 : (w : ℚ) / h ≤ 1 := by
            rw [div_le_one hhQ]
            exact_mod_cast hwh
          nlinarith
        have hp200 : p ≤ 200 := by
          refine le_trans hr2 ?_
          rw [Int.ceil_le]
          push_cast
          exact hq200
        have hpx : (p.toNat : ℤ) = p := Int.toNat_of_nonneg (by omega)
        refine ⟨by omega, by omega, by norm_num, by norm_num, ?_⟩
        have hqh : (200 * ((w : ℚ) / h)) * h = 200 * w := by
          field_simp
        have hQ : |((p : ℤ) : ℚ) * h - 200 * w| < (h : ℚ) := by
          have hkey : ((p : ℤ) : ℚ) * (h : ℚ) - 200 * w =
              (((p : ℤ) : ℚ) - 200 * ((w : ℚ) / h)) * h := by
            rw [sub_mul, hqh]
          rw [hkey, abs_mul, abs_of_pos hhQ]
          have hmul := mul_lt_mul_of_pos_right hr3 hhQ
          rw [one_mul] at hmul
          exact hmul
        have hQ2 : |((p.toNat : ℚ)) * h - 200 * w| < (h : ℚ) := by
          rw [(show ((p.toNat : ℚ)) = ((p : ℤ) : ℚ) by exact_mod_cast hpx)]
          exact hQ
        have hmaxQ : (h : ℚ) ≤ ((max w h : Nat) : ℚ) := by
          exact_mod_cast le_max_right w h
        exact_mod_cast lt_of_lt_of_le hQ2 hmaxQ
      · rename_i hbr
        push_neg at hbr
        rw [div_self (by norm_num : (200 : ℚ) ≠ 0)] at hbr
        have hhw : h < w := by
          have := (one_lt_div hhQ).mp hbr
          exact_mod_cast this
        obtain ⟨rfl, rfl⟩ := Prod.mk.injEq .. ▸ Except.ok.inj heq
        have hqrw : (200 : ℚ) / ((w : ℚ) / h) = 200 * ((h : ℚ) / w) := by
          field_simp
        rw [hqrw]
        have hq0 : (0 : ℚ) < 200 * ((h : ℚ) / w) := by positivity
        obtain ⟨hr1, hr2, hr3⟩ :=
          round_aspect_bounds (200 * ((h : ℚ) / w))
            (fun n => if n = 0 then 0 else |(w : ℚ) / h - (200 : ℚ) / (n : ℚ)|) hq0
        set p := round_aspect (200 * ((h : ℚ) / w))
          (fun n => if n = 0 then 0 else |(w : ℚ) / h - (200 : ℚ) / (n : ℚ)|) with hpdef
        have hq200 : 200 * ((h : ℚ) / w) ≤ 200 := by
          have hle1 : (h : ℚ) / w ≤ 1 := by
            rw [div_le_one hwQ]
            exact_mod_cast hhw.le
          nlinarith
        have hp200 : p ≤ 200 := by
          refine le_trans hr2 ?_
          rw [Int.ceil_le]
          push_cast
          exact hq200
        have hpx : (p.toNat : ℤ) = p := Int.toNat_of_nonneg (by omega)
        refine ⟨by norm_num, by norm_num, by omega, by omega, ?_⟩
        have hqw : (200 * ((h : ℚ) / w)) * w = 200 * h := by
          field_simp
        have hQ : |(200 : ℚ) * h - ((p : ℤ) : ℚ) * w| < (w : ℚ) := by
          rw [abs_sub_comm]
          have hkey : ((p : ℤ) : ℚ) * (w : ℚ) - 200 * h =
              (((p : ℤ) : ℚ) - 200 * ((h : ℚ) / w)) * w := by
            rw [sub_mul, hqw]
          rw [hkey, abs_mul, abs_of_pos hwQ]
          have hmul := mul_lt_mul_of_pos_right hr3 hwQ
          rw [one_mul] at hmul
          exact hmul
        have hQ2 : |(200 : ℚ) * h - ((p.toNat : ℚ)) * w| < (w : ℚ) := by
          rw [(show ((p.toNat : ℚ)) = ((p : ℤ) : ℚ) by exact_mod_cast hpx)]
          exact hQ
        have hmaxQ : (w : ℚ) ≤ ((max w h : Nat) : ℚ) := by
          exact_mod_cast le_max_left w h
        exact_mod_cast lt_of_lt_of_le hQ2 hmaxQ

theorem rgba_to_rgb_dims (output_format : String) (image : Img) :
    (rgba_to_rgb output_format image).width = image.width ∧
    (rgba_to_rgb output_format image).height = image.height := by
  unfold rgba_to_rgb
  split
  · split
    · exact ⟨rfl, rfl⟩
    · refine ⟨?_, ?_⟩ <;> dsimp only <;> split <;> rfl
  · exact ⟨rfl, rfl⟩

theorem thumbnailImg_spec (lib : ImgLib) (image : Img) (thumb : Img)
    (hw : 1 ≤ image.width) (hh : 1 ≤ image.height)
    (heq : thumbnailImg lib image = Except.ok thumb) :
    1 ≤ thumb.width ∧ thumb.width ≤ 200 ∧ 1 ≤ thumb.height ∧ thumb.height ≤ 200 ∧
      |(thumb.width : ℤ) * image.height - (thumb.height : ℤ) * image.width| <
        ((max image.width image.height : Nat) : ℤ) := by
  unfold thumbnailImg at heq
  cases hts : thumbnail_size image.width image.height with
  | error e => rw [hts] at heq; cases heq
  | ok s =>
    obtain ⟨x, y⟩ := s
    rw [hts] at heq
    have hspec := thumbnail_size_spec image.width image.height x y hw hh hts
    dsimp only at heq
    split at heq
    · rename_i hcond
      obtain ⟨he⟩ := heq
      obtain ⟨h1, h2, h3, h4, h5⟩ := hspec
      rw [hcond.1] at h1 h2 h5
      rw [hcond.2] at h3 h4 h5
      exact ⟨h1, h2, h3, h4, h5⟩
    · obtain ⟨he⟩ := heq
      exact hspec

/-- C9: when a conversion succeeds, its preview is obtained from the
post-compositing image: the thumbnail dimensions never exceed 200,
are at least 1, and preserve the source aspect ratio within rounding
(the cross product of the dimensions differs by less than
max(width, height)), and the preview string is the base64 encoding of
that thumbnail encoded as JPEG at quality 85. -/
theorem claim_C9_preview (lib : ImgLib) (file_data : List Nat) (output_format : String)
    (original_filename : String) (image0 : Img) (fn : String) (data : List Nat) (pv mt : String)
    (hdec : lib.decode file_data = Except.ok image0)
    (hw : 1 ≤ image0.width) (hh : 1 ≤ image0.height)
    (h : convert_single_image lib file_data output_format original_filename =
      ConvResult.success fn data pv mt) :
    ∃ thumb tbytes,
      thumbnailImg lib (rgba_to_rgb output_format image0) = Except.ok thumb ∧
      1 ≤ thumb.width ∧ thumb.width ≤ 200 ∧ 1 ≤ thumb.height ∧ thumb.height ≤ 200 ∧
      |(thumb.width : ℤ) * image0.height - (thumb.height : ℤ) * image0.width| <
        ((max image0.width image0.height : Nat) : ℤ) ∧
      lib.encode thumb "JPEG" (SaveKwargs.mk (some 85) none none) = Except.ok tbytes ∧
      pv = b64encode tbytes := by
  rw [convert_single_image, hdec] at h
  dsimp only at h
  split at h
  · cases h
  · rename_i data2 hencode
    split at h
    · cases h
    · rename_i thumb hthumb
      split at h
      · cases h
      · rename_i pdata hpenc
        obtain ⟨hfn, hdata, hpv, hmt⟩ := ConvResult.success.inj h
        obtain ⟨hdw, hdh⟩ := rgba_to_rgb_dims output_format image0
        have hw2 : 1 ≤ (rgba_to_rgb output_format image0).width := by rw [hdw]; exact hw
        have hh2 : 1 ≤ (rgba_to_rgb output_format image0).height := by rw [hdh]; exact hh
        have hspec := thumbnailImg_spec lib (rgba_to_rgb output_format image0) thumb
          hw2 hh2 hthumb
        rw [hdw, hdh] at hspec
        obtain ⟨h1, h2, h3, h4, h5⟩ := hspec
        exact ⟨thumb, pdata, hthumb, h1, h2, h3, h4, h5, hpenc, hpv.symm⟩

/-- The decoded form of the 1x1 RGB test payload
`[0, 1, 1, 10, 20, 30, 255]` under `testDecode`. -/
def testImgA : Img :=
  Img.mk Mode.RGB 1 1
    (fun x y => Pix.mk ([10, 20, 30, 255].getD (4 * (y * 1 + x)) 0)
      ([10, 20, 30, 255].getD (4 * (y * 1 + x) + 1) 0)
      ([10, 20, 30, 255].getD (4 * (y * 1 + x) + 2) 0)
      ([10, 20, 30, 255].getD (4 * (y * 1 + x) + 3) 0))

/-- Witness for `claim_C9_preview`: the 1x1 RGB payload converted to
PNG. -/
theorem claim_C9_preview_witness :
    testLib.decode [0, 1, 1, 10, 20, 30, 255] = Except.ok testImgA ∧
    1 ≤ testImgA.width ∧ 1 ≤ testImgA.height ∧
    convert_single_image testLib [0, 1, 1, 10, 20, 30, 255] "PNG" "photo.png" =
      ConvResult.success "photo_converted.png" [1, 1, 10, 20, 30, 255]
        (b64encode [1, 1, 10, 20, 30, 255]) "image/png" ∧
    ∃ thumb tbytes,
      thumbnailImg testLib (rgba_to_rgb "PNG" testImgA) = Except.ok thumb ∧
      1 ≤ thumb.width ∧ thumb.width ≤ 200 ∧ 1 ≤ thumb.height ∧ thumb.height ≤ 200 ∧
      |(thumb.width : ℤ) * testImgA.height - (thumb.height : ℤ) * testImgA.width| <
        ((max testImgA.width testImgA.height : Nat) : ℤ) ∧
      testLib.encode thumb "JPEG" (SaveKwargs.mk (some 85) none none) = Except.ok tbytes ∧
      b64encode [1, 1, 10, 20, 30, 255] = b64encode tbytes :=
  ⟨rfl, by decide, by decide, by decide,
    claim_C9_preview testLib [0, 1, 1, 10, 20, 30, 255] "PNG" "photo.png" testImgA
      "photo_converted.png" [1, 1, 10, 20, 30, 255] (b64encode [1, 1, 10, 20, 30, 255])
      "image/png" rfl (by decide) (by decide) (by decide)⟩
